import Mathlib

/-!
Verification of the process-supervision and bridging subsystem of
CLIAIRMONITOR (`internal/aider/bridge.go`): the output classifier
(`parseAiderLine`), the Bridge start/stop state machine, command handling,
and the Spawner spawn / stop / liveness-check logic.

Go strings are modelled as Lean `String`; the Go helpers
`strings.ToLower`, `strings.Contains`, `strings.TrimSpace` and
`strings.HasPrefix` are embedded as executable functions over the
underlying character lists.
-/

namespace CLIAIRMONITOR

/-- Embedding of Go `strings.HasPrefix` on character lists:
`strHasPre pat l` is true when `pat` is an initial segment of `l`. -/
def strHasPre : List Char → List Char → Bool
  | [], _ => true
  | _ :: _, [] => false
  | a :: as, b :: bs => a == b && strHasPre as bs

/-- Embedding of Go `strings.Contains` on character lists:
`listHasSub pat l` is true when `pat` occurs contiguously inside `l`. -/
def listHasSub (pat : List Char) : List Char → Bool
  | [] => strHasPre pat []
  | c :: cs => strHasPre pat (c :: cs) || listHasSub pat cs

/-- Go `strings.Contains(s, pat)`. -/
def strContains (s pat : String) : Bool :=
  listHasSub pat.data s.data

/-- Go `strings.HasPrefix(s, pat)`. -/
def strStartsWith (s pat : String) : Bool :=
  strHasPre pat.data s.data

/-- Go `strings.ToLower(s)` (ASCII case folding, which is all the
classifier patterns need). -/
def goToLower (s : String) : String :=
  ⟨s.data.map Char.toLower⟩

/-- Go `strings.TrimSpace(s)`: drop whitespace from both ends. -/
def goTrimSpace (s : String) : String :=
  ⟨((s.data.dropWhile Char.isWhitespace).reverse.dropWhile Char.isWhitespace).reverse⟩

/-- Agent status values produced by the bridge (the `newStatus` strings of
`parseAiderLine` and the statuses used by `publishStatus` callers). -/
inductive AStatus
  | starting
  | connected
  | working
  | idle
  | error
  | stopping
  | disconnected
  deriving DecidableEq, Repr

/-- Embedding of the pure classification core of
`Bridge.parseAiderLine` (bridge.go): the `switch` over the lowered and
trimmed line, returning the `(newStatus, newTask)` pair, or `none` for the
`default` branch (no status change). -/
def parseAiderLine (line : String) : Option (AStatus × String) :=
  if strContains (goToLower line) "thinking" then
    some (AStatus.working, "Thinking...")
  else if strContains (goToLower line) "applied edit" then
    some (AStatus.working, "Applied edit to files")
  else if strStartsWith (goTrimSpace line) ">" then
    some (AStatus.idle, "Awaiting prompt")
  else if strContains (goToLower line) "error" then
    some (AStatus.error, line)
  else if strContains (goToLower line) "commit" then
    some (AStatus.working, "Committing changes")
  else if strContains (goToLower line) "added" then
    some (AStatus.working, "Adding files to context")
  else if strContains (goToLower line) "searching" then
    some (AStatus.working, "Searching codebase")
  else if strContains (goToLower line) "reading" then
    some (AStatus.working, "Reading files")
  else
    none

example : parseAiderLine "Thinking about it" = some (AStatus.working, "Thinking...") := by decide
example : parseAiderLine "ERROR: boom" = some (AStatus.error, "ERROR: boom") := by decide
example : parseAiderLine "> " = some (AStatus.idle, "Awaiting prompt") := by decide
example : parseAiderLine "hello world" = none := by decide

/-- C1: a line that case-insensitively contains both "thinking" and
"error" classifies as `(working, "Thinking...")` and never as an error
status, because the "thinking" case is matched first in the fixed
priority order of `parseAiderLine`. -/
theorem parseAiderLine_thinking_priority (line : String)
    (hthink : strContains (goToLower line) "thinking" = true)
    (herr : strContains (goToLower line) "error" = true) :
    parseAiderLine line = some (AStatus.working, "Thinking...") ∧
    ∀ t : String, parseAiderLine line ≠ some (AStatus.error, t) := by
  refine ⟨?_, ?_⟩
  · simp [parseAiderLine, hthink]
  · intro t
    simp [parseAiderLine, hthink]

/-- Witness for C1 at the concrete line "Thinking about the Error". -/
theorem parseAiderLine_thinking_priority_witness :
    parseAiderLine "Thinking about the Error" = some (AStatus.working, "Thinking...") ∧
    ∀ t : String, parseAiderLine "Thinking about the Error" ≠ some (AStatus.error, t) :=
  parseAiderLine_thinking_priority "Thinking about the Error" (by decide) (by decide)

/-- C2: a line that case-insensitively contains "error", contains neither
"thinking" nor "applied edit", and whose trimmed form does not start with
">", classifies as status `error` with the task equal to the verbatim,
unmodified input line. -/
theorem parseAiderLine_error_verbatim (line : String)
    (herr : strContains (goToLower line) "error" = true)
    (hthink : strContains (goToLower line) "thinking" = false)
    (happ : strContains (goToLower line) "applied edit" = false)
    (hgt : strStartsWith (goTrimSpace line) ">" = false) :
    parseAiderLine line = some (AStatus.error, line) := by
  simp [parseAiderLine, herr, hthink, happ, hgt]

/-- Witness for C2 at the concrete line "Error: file not found". -/
theorem parseAiderLine_error_verbatim_witness :
    parseAiderLine "Error: file not found" = some (AStatus.error, "Error: file not found") :=
  parseAiderLine_error_verbatim "Error: file not found"
    (by decide) (by decide) (by decide) (by decide)

/-! ## Bridge state machine

The `Bridge` struct of bridge.go, with its externally visible effects made
explicit: `stdinWrites` accumulates the bytes written to the subprocess
stdin, `published` accumulates the status events that were successfully
published on the bus (publishing through a closed bus client fails and
delivers nothing), and `taskHistory` records every assignment to
`currentTask` in order, so that transient assignments are observable. -/

/-- A status event as published by `publishStatus`
(`natslib.StatusMessage`, timestamp omitted). -/
structure StatusMessage where
  agentID : String
  status : String
  currentTask : String
  deriving DecidableEq, Repr

/-- The `Bridge` struct of bridge.go together with its effect traces. -/
structure Bridge where
  agentID : String
  status : String
  currentTask : String
  connected : Bool
  /-- `stopCh` has been closed (the one-shot cancellation signal). -/
  stopClosed : Bool
  stdinOpen : Bool
  stdoutOpen : Bool
  stderrOpen : Bool
  /-- the NATS client has been closed. -/
  natsClosed : Bool
  stdinWrites : List String
  published : List StatusMessage
  taskHistory : List String
  deriving DecidableEq, Repr

/-- `NewBridge` (bridge.go): fresh bridge in status "starting",
not connected, with an unclosed stop channel. -/
def newBridge (agentID : String) : Bridge :=
  { agentID := agentID
    status := "starting"
    currentTask := ""
    connected := false
    stopClosed := false
    stdinOpen := true
    stdoutOpen := true
    stderrOpen := true
    natsClosed := false
    stdinWrites := []
    published := []
    taskHistory := [] }

/-- `Bridge.publishStatus` (bridge.go): sets `status` and `currentTask`
under the lock, then publishes a `StatusMessage` on the bus; a publish
through a closed bus client fails (is logged) and delivers nothing. -/
def publishStatus (b : Bridge) (st task : String) : Bridge :=
  { b with
    status := st
    currentTask := task
    taskHistory := b.taskHistory ++ [task]
    published :=
      if b.natsClosed then b.published
      else b.published ++ [⟨b.agentID, st, task⟩] }

/-- `Bridge.Start` (bridge.go): if the command subscription succeeds, mark
connected with status "connected" / task "Aider ready" and publish the
initial status; on subscription failure return the error with the state
untouched. -/
def startBridge (subscribeOk : Bool) (b : Bridge) : Bridge :=
  if subscribeOk then
    publishStatus
      { b with
        connected := true
        status := "connected"
        currentTask := "Aider ready"
        taskHistory := b.taskHistory ++ ["Aider ready"] }
      "connected" "Aider ready"
  else b

/-- `Bridge.Stop` (bridge.go): if `stopCh` is already closed the call is a
no-op; otherwise close it, clear `connected`, write "/quit" to stdin and
close all three stream handles, publish the "disconnected" status, and
finally close the NATS client. -/
def stop (b : Bridge) : Bridge :=
  if b.stopClosed then b
  else
    let b2 := publishStatus
      { b with
        stopClosed := true
        connected := false
        stdinWrites := b.stdinWrites ++ ["/quit\n"]
        stdinOpen := false
        stdoutOpen := false
        stderrOpen := false }
      "disconnected" "Bridge stopped"
    { b2 with natsClosed := true }

/-- End of the `parseAiderOutput` read loop (bridge.go): on EOF of the
stdout stream, clear `connected` and publish
"disconnected" / "Aider process ended". -/
def stdoutEOF (b : Bridge) : Bridge :=
  publishStatus { b with connected := false } "disconnected" "Aider process ended"

/-- A decoded payload value of a command envelope (`cmd.Payload` is a
`map[string]interface{}`; the handler only distinguishes string values). -/
inductive PayloadVal
  | str (s : String)
  | other
  deriving DecidableEq, Repr

/-- A decoded command envelope (`natslib.CommandMessage`). -/
structure CommandMessage where
  type : String
  payload : List (String × PayloadVal)
  deriving DecidableEq, Repr

/-- The Go type assertion `cmd.Payload[k].(string)`: the string value at
key `k`, if present and a string. -/
def payloadGetStr (p : List (String × PayloadVal)) (k : String) : Option String :=
  match p with
  | [] => none
  | (key, v) :: rest =>
    if key = k then
      match v with
      | PayloadVal.str s => some s
      | PayloadVal.other => none
    else payloadGetStr rest k

/-- `Bridge.handleCommand` (bridge.go), after a successful JSON decode:
dispatch on `cmd.Type`; unknown types are logged and ignored. -/
def handleCommand (b : Bridge) (cmd : CommandMessage) : Bridge :=
  if cmd.type = "prompt" then
    match payloadGetStr cmd.payload "text" with
    | some text =>
      let b1 := { b with currentTask := text, taskHistory := b.taskHistory ++ [text] }
      let b2 := publishStatus b1 "working" "Processing prompt"
      { b2 with stdinWrites := b2.stdinWrites ++ [text ++ "\n"] }
    | none => b
  else if cmd.type = "stop" then
    publishStatus { b with stdinWrites := b.stdinWrites ++ ["/quit\n"] }
      "stopping" "Quitting Aider"
  else if cmd.type = "clear" then
    publishStatus { b with stdinWrites := b.stdinWrites ++ ["/clear\n"] }
      "working" "Clearing chat history"
  else if cmd.type = "add" then
    match payloadGetStr cmd.payload "file" with
    | some file =>
      publishStatus { b with stdinWrites := b.stdinWrites ++ ["/add " ++ file ++ "\n"] }
        "working" ("Adding file: " ++ file)
    | none => b
  else if cmd.type = "drop" then
    match payloadGetStr cmd.payload "file" with
    | some file =>
      publishStatus { b with stdinWrites := b.stdinWrites ++ ["/drop " ++ file ++ "\n"] }
        "working" ("Dropping file: " ++ file)
    | none => b
  else b

/-- C3: on a "prompt" envelope whose payload holds a string under "text",
`handleCommand` appends `text ++ "\n"` to the subprocess stdin, assigns
`currentTask := text` (witnessed in the task-assignment history; the
subsequent `publishStatus` then assigns "Processing prompt"), and
publishes a status event with status "working". -/
theorem handleCommand_prompt_effects (b : Bridge) (cmd : CommandMessage) (text : String)
    (ht : cmd.type = "prompt")
    (hp : payloadGetStr cmd.payload "text" = some text)
    (hn : b.natsClosed = false) :
    (handleCommand b cmd).stdinWrites = b.stdinWrites ++ [text ++ "\n"] ∧
    (handleCommand b cmd).taskHistory = b.taskHistory ++ [text, "Processing prompt"] ∧
    (⟨b.agentID, "working", "Processing prompt"⟩ : StatusMessage) ∈ (handleCommand b cmd).published := by
  refine ⟨?_, ?_, ?_⟩ <;> simp [handleCommand, ht, hp, publishStatus, hn]

/-- Witness for C3: a concrete "prompt" command with text "fix the bug". -/
theorem handleCommand_prompt_effects_witness :
    (handleCommand (newBridge "a1") ⟨"prompt", [("text", PayloadVal.str "fix the bug")]⟩).stdinWrites
      = (newBridge "a1").stdinWrites ++ ["fix the bug\n"] ∧
    (handleCommand (newBridge "a1") ⟨"prompt", [("text", PayloadVal.str "fix the bug")]⟩).taskHistory
      = (newBridge "a1").taskHistory ++ ["fix the bug", "Processing prompt"] ∧
    (⟨"a1", "working", "Processing prompt"⟩ : StatusMessage) ∈
      (handleCommand (newBridge "a1") ⟨"prompt", [("text", PayloadVal.str "fix the bug")]⟩).published :=
  handleCommand_prompt_effects (newBridge "a1") ⟨"prompt", [("text", PayloadVal.str "fix the bug")]⟩
    "fix the bug" rfl (by decide) rfl

/-- Number of "disconnected" status events in a publish trace. -/
def countDisconnected (l : List StatusMessage) : Nat :=
  (l.filter (fun m => m.status == "disconnected")).length

/-- C4: `Stop` is idempotent — a second call is a no-op detected via the
one-shot `stopCh` — and on a bridge whose stop channel and bus client are
still open, two `Stop` calls publish exactly one "disconnected" status
event in total. -/
theorem stop_idempotent (b : Bridge) :
    stop (stop b) = stop b ∧
    (b.stopClosed = false → b.natsClosed = false →
      countDisconnected (stop (stop b)).published = countDisconnected b.published + 1) := by
  constructor
  · by_cases h : b.stopClosed
    · simp [stop, h]
    · have h1 : (stop b).stopClosed = true := by
        simp [stop, h, publishStatus]
      rw [stop, if_pos h1]
  · intro h hn
    have h1 : (stop b).stopClosed = true := by
      simp [stop, h, publishStatus]
    rw [stop, if_pos h1]
    simp [stop, h, publishStatus, hn, countDisconnected]

/-- Witness for C4 on a fresh bridge. -/
theorem stop_idempotent_witness :
    stop (stop (newBridge "a2")) = stop (newBridge "a2") ∧
    countDisconnected (stop (stop (newBridge "a2"))).published
      = countDisconnected (newBridge "a2").published + 1 :=
  ⟨(stop_idempotent (newBridge "a2")).1,
   (stop_idempotent (newBridge "a2")).2 rfl rfl⟩

/-- C10: on its first invocation `Stop` closes the NATS client, and it
does so after the "disconnected" publish (the publish lands on the trace,
which it could not if the client were already closed); afterwards no
publish through that bus client can succeed — `publishStatus` on the
stopped bridge delivers nothing. -/
theorem stop_closes_nats_after_publish (b : Bridge)
    (hb : b.stopClosed = false) (hn : b.natsClosed = false) :
    (stop b).natsClosed = true ∧
    (stop b).published = b.published ++ [⟨b.agentID, "disconnected", "Bridge stopped"⟩] ∧
    ∀ st task : String, (publishStatus (stop b) st task).published = (stop b).published := by
  refine ⟨?_, ?_, ?_⟩
  · simp [stop, hb, publishStatus]
  · simp [stop, hb, publishStatus, hn]
  · intro st task
    have h1 : (stop b).natsClosed = true := by simp [stop, hb, publishStatus]
    simp [publishStatus, h1]

/-- Witness for C10 on a fresh bridge. -/
theorem stop_closes_nats_after_publish_witness :
    (stop (newBridge "a3")).natsClosed = true ∧
    (stop (newBridge "a3")).published
      = (newBridge "a3").published ++ [⟨"a3", "disconnected", "Bridge stopped"⟩] ∧
    ∀ st task : String,
      (publishStatus (stop (newBridge "a3")) st task).published = (stop (newBridge "a3")).published :=
  stop_closes_nats_after_publish (newBridge "a3") rfl rfl

/-! ## Bridge lifecycle traces (C9)

A bridge lifecycle is a sequence of the events that touch the
connectivity flag: a `Start` call that succeeds or fails at the command
subscription, a `Stop` call, and detection of stdout EOF. In the program
a bridge is created by `SpawnAgent`, started exactly once, and never
restarted after a stop, so lifecycles have a single successful start. -/

/-- Lifecycle events of one bridge. -/
inductive BEvent
  | startOk
  | startFail
  | stopCall
  | eofDetected
  deriving DecidableEq, Repr

/-- One lifecycle event applied to the bridge state. -/
def bridgeStep (b : Bridge) (e : BEvent) : Bridge :=
  match e with
  | BEvent.startOk => startBridge true b
  | BEvent.startFail => startBridge false b
  | BEvent.stopCall => stop b
  | BEvent.eofDetected => stdoutEOF b

/-- Run a bridge through a sequence of lifecycle events. -/
def runBridge (b : Bridge) (tr : List BEvent) : Bridge :=
  tr.foldl bridgeStep b

theorem publishStatus_connected (b : Bridge) (st task : String) :
    (publishStatus b st task).connected = b.connected := rfl

theorem publishStatus_stopClosed (b : Bridge) (st task : String) :
    (publishStatus b st task).stopClosed = b.stopClosed := rfl

/-- Once the connectivity flag is down, no trace free of successful
starts brings it back up. -/
theorem runBridge_connected_stays_false (tr : List BEvent) (b : Bridge)
    (hok : BEvent.startOk ∉ tr) (hc : b.connected = false) :
    (runBridge b tr).connected = false := by
  induction tr generalizing b with
  | nil => exact hc
  | cons e rest ih =>
    have hok2 : BEvent.startOk ∉ rest := fun h => hok (List.mem_cons_of_mem _ h)
    have he : e ≠ BEvent.startOk := fun h => hok (h ▸ List.mem_cons_self e rest)
    cases e with
    | startOk => exact absurd rfl he
    | startFail =>
      exact ih _ hok2 (by simpa [runBridge, bridgeStep, startBridge] using hc)
    | stopCall =>
      refine ih _ hok2 ?_
      by_cases hs : b.stopClosed
      · simp [bridgeStep, stop, hs, hc]
      · simp [bridgeStep, stop, hs, publishStatus]
    | eofDetected =>
      exact ih _ hok2 (by simp [bridgeStep, stdoutEOF, publishStatus])

/-- While the bridge is connected with its one-shot stop channel still
open, the connectivity flag at the end of a start-free trace is up
exactly when the trace contains neither a `Stop` call nor an EOF. -/
theorem runBridge_connected_iff_aux (post : List BEvent) (b : Bridge)
    (hok : BEvent.startOk ∉ post) (hc : b.connected = true) (hs : b.stopClosed = false) :
    ((runBridge b post).connected = true ↔
      (BEvent.stopCall ∉ post ∧ BEvent.eofDetected ∉ post)) := by
  induction post generalizing b with
  | nil => simp [runBridge, hc]
  | cons e rest ih =>
    have hok2 : BEvent.startOk ∉ rest := fun h => hok (List.mem_cons_of_mem _ h)
    cases e with
    | startOk => exact absurd (List.mem_cons_self _ _) hok
    | startFail =>
      have hstep : bridgeStep b BEvent.startFail = b := by
        simp [bridgeStep, startBridge]
      have := ih b hok2 hc hs
      simpa [runBridge, hstep, List.mem_cons] using this
    | stopCall =>
      have hdown : (bridgeStep b BEvent.stopCall).connected = false := by
        simp [bridgeStep, stop, hs, publishStatus]
      have hfinal : (runBridge (bridgeStep b BEvent.stopCall) rest).connected = false :=
        runBridge_connected_stays_false rest _ hok2 hdown
      simp [runBridge, List.foldl_cons] at hfinal ⊢
      simp [hfinal]
    | eofDetected =>
      have hdown : (bridgeStep b BEvent.eofDetected).connected = false := by
        simp [bridgeStep, stdoutEOF, publishStatus]
      have hfinal : (runBridge (bridgeStep b BEvent.eofDetected) rest).connected = false :=
        runBridge_connected_stays_false rest _ hok2 hdown
      simp [runBridge, List.foldl_cons] at hfinal ⊢
      simp [hfinal]

/-- A run of failed start attempts leaves the bridge untouched. -/
theorem runBridge_startFail_id (pre : List BEvent) (b : Bridge)
    (h : ∀ e ∈ pre, e = BEvent.startFail) :
    runBridge b pre = b := by
  induction pre generalizing b with
  | nil => rfl
  | cons e rest ih =>
    have he : e = BEvent.startFail := h e (List.mem_cons_self _ _)
    have hrest : ∀ x ∈ rest, x = BEvent.startFail :=
      fun x hx => h x (List.mem_cons_of_mem _ hx)
    subst he
    have hstep : bridgeStep b BEvent.startFail = b := by
      simp [bridgeStep, startBridge]
    simpa [runBridge, hstep] using ih b hrest

/-- C9: on a fresh bridge the connectivity flag is false; it stays false
on any trace with no successful `Start`; and in a lifecycle consisting of
failed start attempts, one successful `Start`, and no further start, the
flag is up exactly until the first `Stop` call or stdout EOF — i.e. it is
true at the end iff no `Stop` and no EOF occurred after the successful
`Start`. -/
theorem bridge_connectivity (id : String) :
    (newBridge id).connected = false ∧
    (∀ tr : List BEvent, BEvent.startOk ∉ tr →
      (runBridge (newBridge id) tr).connected = false) ∧
    (∀ pre post : List BEvent,
      (∀ e ∈ pre, e = BEvent.startFail) → BEvent.startOk ∉ post →
      ((runBridge (newBridge id) (pre ++ BEvent.startOk :: post)).connected = true ↔
        (BEvent.stopCall ∉ post ∧ BEvent.eofDetected ∉ post))) := by
  refine ⟨rfl, ?_, ?_⟩
  · intro tr hok
    exact runBridge_connected_stays_false tr _ hok rfl
  · intro pre post hpre hok
    have hsplit : runBridge (newBridge id) (pre ++ BEvent.startOk :: post)
        = runBridge (runBridge (newBridge id) pre) (BEvent.startOk :: post) := by
      simp [runBridge, List.foldl_append]
    rw [hsplit, runBridge_startFail_id pre _ hpre]
    have hconn : (bridgeStep (newBridge id) BEvent.startOk).connected = true := by
      simp [bridgeStep, startBridge, publishStatus]
    have hstopc : (bridgeStep (newBridge id) BEvent.startOk).stopClosed = false := by
      simp [bridgeStep, startBridge, publishStatus, newBridge]
    have := runBridge_connected_iff_aux post (bridgeStep (newBridge id) BEvent.startOk)
      hok hconn hstopc
    simpa [runBridge, List.foldl_cons] using this

/-- Witness for C9: a started bridge with no stop and no EOF is
connected. -/
theorem bridge_connectivity_witness :
    (runBridge (newBridge "a4") ([BEvent.startFail] ++ BEvent.startOk :: [])).connected = true := by
  have h := (bridge_connectivity "a4").2.2 [BEvent.startFail] []
    (by intro e he; simpa using he) (by simp)
  rw [h]
  exact ⟨by simp, by simp⟩

/-! ## Spawner (supervisor)

The `Spawner` of bridge.go owns the live-agent map. OS effects that the
code merely reacts to — pipe creation, process start, bridge start,
process exit behaviour during staged shutdown, process liveness — are
supplied as oracle parameters; the observable effects the code performs
(processes started, signals sent, kills, bridge stops, crash publishes)
are returned explicitly. Time is modelled as natural-number instants. -/

/-- An `Agent` record of the spawner (the Bridge itself lives in the
`Bridge` model above; here only its identity matters). -/
structure Agent where
  id : String
  projectPath : String
  model : String
  pid : Nat
  startedAt : Nat
  deriving DecidableEq, Repr

/-- The live set of the spawner: the `agents map[string]*Agent`, as an
association list keyed by agent ID. -/
structure Spawner where
  agents : List (String × Agent)
  deriving DecidableEq, Repr

/-- Map lookup `s.agents[agentID]`. -/
def lookupAgent (id : String) : List (String × Agent) → Option Agent
  | [] => none
  | (k, v) :: rest => if k = id then some v else lookupAgent id rest

/-- Map deletion `delete(s.agents, agentID)`. -/
def removeAgent (id : String) (l : List (String × Agent)) : List (String × Agent) :=
  l.filter (fun p => ¬ p.1 = id)

/-- The spawn request (`AgentConfig`): the caller-supplied project
path. -/
structure AgentConfig where
  projectPath : String
  deriving DecidableEq, Repr

/-- OS oracle for one `SpawnAgent` call: the generated agent ID, whether
each pipe creation succeeds, whether `cmd.Start()` succeeds and with what
PID, and whether `bridge.Start()` succeeds. -/
structure SpawnOS where
  newID : String
  stdinPipeOk : Bool
  stdoutPipeOk : Bool
  stderrPipeOk : Bool
  startOk : Bool
  pid : Nat
  bridgeStartOk : Bool
  deriving DecidableEq, Repr

/-- Observable OS effects of one `SpawnAgent` call. -/
structure SpawnEffects where
  processesStarted : List Nat
  kills : List Nat
  deriving DecidableEq, Repr

/-- `Spawner.SpawnAgent` (bridge.go): validate the project path (empty,
then existence on disk) before anything is started; then create the three
pipes, start the process, and start a bridge around it — killing the
just-started process if the bridge fails — and finally insert the agent
into the live set. `fs` is the set of paths that exist on disk. -/
def spawnAgent (fs : List String) (os : SpawnOS) (now : Nat)
    (s : Spawner) (cfg : AgentConfig) :
    Except String Agent × Spawner × SpawnEffects :=
  if cfg.projectPath = "" then
    (Except.error "project path is required", s, ⟨[], []⟩)
  else if cfg.projectPath ∉ fs then
    (Except.error ("project path does not exist: " ++ cfg.projectPath), s, ⟨[], []⟩)
  else if os.stdinPipeOk = false then
    (Except.error "failed to create stdin pipe", s, ⟨[], []⟩)
  else if os.stdoutPipeOk = false then
    (Except.error "failed to create stdout pipe", s, ⟨[], []⟩)
  else if os.stderrPipeOk = false then
    (Except.error "failed to create stderr pipe", s, ⟨[], []⟩)
  else if os.startOk = false then
    (Except.error "failed to start aider", s, ⟨[], []⟩)
  else if os.bridgeStartOk = false then
    (Except.error "failed to start bridge", s, ⟨[os.pid], [os.pid]⟩)
  else
    let agent : Agent :=
      ⟨os.newID, cfg.projectPath, "openai/qwen2.5-coder-7b-instruct", os.pid, now⟩
    (Except.ok agent, ⟨s.agents ++ [(os.newID, agent)]⟩, ⟨[os.pid], []⟩)

/-- C5: a spawn request whose project path is empty or does not exist on
disk makes `SpawnAgent` return an error before any OS process is started:
the live set is unchanged and no process was spawned. -/
theorem spawnAgent_invalid_path (fs : List String) (os : SpawnOS) (now : Nat)
    (s : Spawner) (cfg : AgentConfig)
    (h : cfg.projectPath = "" ∨ cfg.projectPath ∉ fs) :
    (∃ e, (spawnAgent fs os now s cfg).1 = Except.error e) ∧
    (spawnAgent fs os now s cfg).2.1 = s ∧
    (spawnAgent fs os now s cfg).2.2.processesStarted = [] := by
  rcases h with h | h
  · refine ⟨⟨"project path is required", ?_⟩, ?_, ?_⟩ <;> simp [spawnAgent, h]
  · by_cases he : cfg.projectPath = ""
    · refine ⟨⟨"project path is required", ?_⟩, ?_, ?_⟩ <;> simp [spawnAgent, he]
    · refine ⟨⟨"project path does not exist: " ++ cfg.projectPath, ?_⟩, ?_, ?_⟩ <;>
        simp [spawnAgent, he, h]

/-- Witness for C5: spawning into a path absent from the filesystem. -/
theorem spawnAgent_invalid_path_witness :
    (∃ e, (spawnAgent ["/home"] ⟨"aider-1", true, true, true, true, 7, true⟩ 0
      ⟨[]⟩ ⟨"/missing"⟩).1 = Except.error e) ∧
    (spawnAgent ["/home"] ⟨"aider-1", true, true, true, true, 7, true⟩ 0
      ⟨[]⟩ ⟨"/missing"⟩).2.1 = ⟨[]⟩ ∧
    (spawnAgent ["/home"] ⟨"aider-1", true, true, true, true, 7, true⟩ 0
      ⟨[]⟩ ⟨"/missing"⟩).2.2.processesStarted = [] :=
  spawnAgent_invalid_path ["/home"] ⟨"aider-1", true, true, true, true, 7, true⟩ 0
    ⟨[]⟩ ⟨"/missing"⟩ (Or.inr (by decide))

/-- Exit behaviour of the agent process during the staged shutdown of
`StopAgent`: it exits within the 5-second graceful wait; or only within
the 3 seconds after the SIGTERM attempt (whose send may itself fail — the
code logs and keeps waiting); or it survives both and must be force
killed, the kill succeeding or failing. -/
inductive ExitStage
  | withinGrace
  | afterTerm (termSendOk : Bool)
  | needsKill (termSendOk : Bool) (killOk : Bool)
  deriving DecidableEq, Repr

/-- Observable effects of one `StopAgent` call. -/
structure StopEffects where
  bridgeStops : List String
  stdinCmds : List String
  sigterms : List Nat
  kills : List Nat
  deriving DecidableEq, Repr

/-- The empty `StopAgent` effect record. -/
def noStopEffects : StopEffects := ⟨[], [], [], []⟩

/-- `Spawner.StopAgent` (bridge.go): unknown IDs fail with a not-found
error and nothing else happens; otherwise the agent is removed from the
live set up front, its bridge is stopped, "/quit" is sent, and the staged
wait / SIGTERM / kill escalation runs. The call returns `ok` as soon as
any stage confirms the process gone, and an error only when the final
forced kill fails. -/
def stopAgent (os : ExitStage) (s : Spawner) (id : String) :
    Except String Unit × Spawner × StopEffects :=
  match lookupAgent id s.agents with
  | none => (Except.error ("agent " ++ id ++ " not found"), s, noStopEffects)
  | some a =>
    let s2 : Spawner := ⟨removeAgent id s.agents⟩
    match os with
    | ExitStage.withinGrace =>
      (Except.ok (), s2, ⟨[id], ["/quit\n"], [], []⟩)
    | ExitStage.afterTerm _ =>
      (Except.ok (), s2, ⟨[id], ["/quit\n"], [a.pid], []⟩)
    | ExitStage.needsKill _ killOk =>
      if killOk then
        (Except.ok (), s2, ⟨[id], ["/quit\n"], [a.pid], [a.pid]⟩)
      else
        (Except.error ("failed to kill agent " ++ id), s2, ⟨[id], ["/quit\n"], [a.pid], [a.pid]⟩)

/-- C6: `StopAgent` on an ID not in the live set returns a not-found
error and has no side effects: the live set is unchanged and no bridge
stop, signal, or kill happens. -/
theorem stopAgent_not_found (os : ExitStage) (s : Spawner) (id : String)
    (h : lookupAgent id s.agents = none) :
    (stopAgent os s id).1 = Except.error ("agent " ++ id ++ " not found") ∧
    (stopAgent os s id).2.1 = s ∧
    (stopAgent os s id).2.2 = noStopEffects := by
  refine ⟨?_, ?_, ?_⟩ <;> simp [stopAgent, h]

/-- Witness for C6: stopping an unknown agent on an empty live set. -/
theorem stopAgent_not_found_witness :
    (stopAgent ExitStage.withinGrace ⟨[]⟩ "ghost").1
      = Except.error ("agent " ++ "ghost" ++ " not found") ∧
    (stopAgent ExitStage.withinGrace ⟨[]⟩ "ghost").2.1 = ⟨[]⟩ ∧
    (stopAgent ExitStage.withinGrace ⟨[]⟩ "ghost").2.2 = noStopEffects :=
  stopAgent_not_found ExitStage.withinGrace ⟨[]⟩ "ghost" rfl

/-- C7: for a tracked agent, `StopAgent` fails exactly when the process
survives the graceful wait and the SIGTERM window and the final forced
kill itself fails; every stage that confirms the process gone — graceful
exit, exit after SIGTERM, or a successful kill followed by reaping —
returns `ok`. -/
theorem stopAgent_result_characterization (os : ExitStage) (s : Spawner)
    (id : String) (a : Agent) (h : lookupAgent id s.agents = some a) :
    ((∃ e, (stopAgent os s id).1 = Except.error e) ↔
      (∃ t, os = ExitStage.needsKill t false)) := by
  cases os with
  | withinGrace => simp [stopAgent, h]
  | afterTerm t => simp [stopAgent, h]
  | needsKill t k =>
    cases k with
    | false =>
      simp only [stopAgent, h]
      exact ⟨fun _ => ⟨t, rfl⟩, fun _ => ⟨"failed to kill agent " ++ id, by simp⟩⟩
    | true =>
      simp only [stopAgent, h]
      constructor
      · rintro ⟨e, he⟩
        simp at he
      · rintro ⟨t2, ht⟩
        cases ht

/-- Witness for C7: a failed forced kill on a tracked agent yields an
error. -/
theorem stopAgent_result_characterization_witness :
    (∃ e, (stopAgent (ExitStage.needsKill true false)
      ⟨[("a5", ⟨"a5", "/home", "m", 7, 0⟩)]⟩ "a5").1 = Except.error e) :=
  (stopAgent_result_characterization (ExitStage.needsKill true false)
    ⟨[("a5", ⟨"a5", "/home", "m", 7, 0⟩)]⟩ "a5" ⟨"a5", "/home", "m", 7, 0⟩ rfl).2
    ⟨true, rfl⟩

/-- A published crash notification (`publishCrash` in bridge.go): the
`map[string]interface{}` carrying agent ID, status "crashed", a message
built from the PID and the process uptime, and a timestamp. -/
structure CrashMsg where
  agentId : String
  status : String
  message : String
  timestamp : Nat
  deriving DecidableEq, Repr

/-- The crash message text of `publishCrash`
(`"Aider process crashed (PID: %d, uptime: %s)"`). -/
def crashMessage (pid uptime : Nat) : String :=
  "Aider process crashed (PID: " ++ toString pid ++ ", uptime: " ++ toString uptime ++ ")"

/-- `Spawner.publishCrash` (bridge.go): the crash notification published
for one dead agent. -/
def publishCrash (now : Nat) (id : String) (a : Agent) : CrashMsg :=
  ⟨id, "crashed", crashMessage a.pid (now - a.startedAt), now⟩

/-- `Spawner.checkAgents` (bridge.go), one liveness-poll tick: probe
every tracked agent with the non-destructive null signal (`alive` is the
probe verdict per PID); each dead agent has its bridge stopped, is
deleted from the live set, and gets a crash notification published.
Returns the new spawner state, the IDs whose bridges were stopped, and
the crash notifications published. -/
def checkAgents (alive : Nat → Bool) (now : Nat) (s : Spawner) :
    Spawner × List String × List CrashMsg :=
  let dead := s.agents.filter (fun p => alive p.2.pid = false)
  (⟨s.agents.filter (fun p => alive p.2.pid = true)⟩,
    dead.map (fun p => p.1),
    dead.map (fun p => publishCrash now p.1 p.2))

/-- C8: at a liveness-poll tick, every tracked agent whose process fails
the null-signal probe has its bridge stopped, is removed from the live
set (no dead agent survives the tick), and a crash notification carrying
its agent ID and the crash message built from its PID and uptime is
published. -/
theorem checkAgents_removes_dead (alive : Nat → Bool) (now : Nat) (s : Spawner)
    (id : String) (a : Agent)
    (hmem : (id, a) ∈ s.agents) (hdead : alive a.pid = false) :
    (∀ p ∈ (checkAgents alive now s).1.agents, alive p.2.pid = true) ∧
    id ∈ (checkAgents alive now s).2.1 ∧
    publishCrash now id a ∈ (checkAgents alive now s).2.2 := by
  refine ⟨?_, ?_, ?_⟩
  · intro p hp
    simp only [checkAgents, List.mem_filter] at hp
    exact of_decide_eq_true hp.2
  · simp only [checkAgents, List.mem_map]
    exact ⟨(id, a), List.mem_filter.mpr ⟨hmem, by simp [hdead]⟩, rfl⟩
  · simp only [checkAgents, List.mem_map]
    exact ⟨(id, a), List.mem_filter.mpr ⟨hmem, by simp [hdead]⟩, rfl⟩

/-- Witness for C8: a tick over one live and one dead agent. -/
theorem checkAgents_removes_dead_witness :
    (∀ p ∈ (checkAgents (fun pid => pid == 7) 20
        ⟨[("a6", ⟨"a6", "/home", "m", 7, 0⟩), ("a7", ⟨"a7", "/home", "m", 9, 5⟩)]⟩).1.agents,
      (fun pid => pid == 7) p.2.pid = true) ∧
    "a7" ∈ (checkAgents (fun pid => pid == 7) 20
        ⟨[("a6", ⟨"a6", "/home", "m", 7, 0⟩), ("a7", ⟨"a7", "/home", "m", 9, 5⟩)]⟩).2.1 ∧
    publishCrash 20 "a7" ⟨"a7", "/home", "m", 9, 5⟩ ∈
      (checkAgents (fun pid => pid == 7) 20
        ⟨[("a6", ⟨"a6", "/home", "m", 7, 0⟩), ("a7", ⟨"a7", "/home", "m", 9, 5⟩)]⟩).2.2 :=
  checkAgents_removes_dead (fun pid => pid == 7) 20
    ⟨[("a6", ⟨"a6", "/home", "m", 7, 0⟩), ("a7", ⟨"a7", "/home", "m", 9, 5⟩)]⟩
    "a7" ⟨"a7", "/home", "m", 9, 5⟩ (by simp) (by decide)

end CLIAIRMONITOR
